import Mathlib

/-!
Shallow embedding of the StockAnalyzer core pipeline
(`src/data_processor.py` and `src/stock_analyzer/validators.py`):
column auto-detection, currency cleaning, and the three validators,
together with theorems settling the specification claims.

Cell values are modelled by `PyVal` (dynamically typed Python values,
numerics as exact rationals); a pandas DataFrame is a `Table` of a
header list plus rows of cells.
-/

namespace StockAnalyzer

/-- A dynamically-typed cell value: text, number (modelled as an exact
rational), the null/NaN marker, or a boolean. -/
inductive PyVal where
  | vStr (s : String)
  | vNum (q : ℚ)
  | vNone
  | vBool (b : Bool)
deriving DecidableEq, Repr

/-- A DataFrame: an ordered header list and rows of cells. -/
structure Table where
  headers : List String
  rows : List (List PyVal)
deriving DecidableEq, Repr

/-- The test `startsWithL pat s` is true when `pat` is an initial segment of `s`. -/
def startsWithL : List Char → List Char → Bool
  | [], _ => true
  | _ :: _, [] => false
  | a :: as, b :: bs => a = b && startsWithL as bs

/-- The test `hasSubL pat s` is true when `pat` occurs contiguously inside `s`:
Python's `pat in s` on strings. -/
def hasSubL (pat : List Char) : List Char → Bool
  | [] => startsWithL pat []
  | c :: cs => startsWithL pat (c :: cs) || hasSubL pat cs

/-- Python's substring test `pat in s`. -/
def strIn (pat s : String) : Bool := hasSubL pat.data s.data

/-- Characters kept by `clean_currency`'s regex `[^\d\.-]` substitution:
digits, the decimal point and the minus sign. -/
def keepChar (c : Char) : Bool := c.isDigit || c = '.' || c = '-'

/-- Python's `re.sub(r'[^\d\.-]', '', s)`: drop every character that is
not a digit, a dot or a minus sign. -/
def stripCurrency (s : String) : String := ⟨s.data.filter keepChar⟩

/-- Numeric value of a digit string, most significant first. -/
def digitsVal (ds : List Char) : ℕ := ds.foldl (fun a c => 10 * a + (c.toNat - 48)) 0

/-- The rational denoted by a sign, a mantissa (all digits, integral and
fractional concatenated) and the number of fractional digits. -/
def ratOfParts (neg : Bool) (mant fracLen : ℕ) : ℚ :=
  let q : ℚ := (mant : ℚ) / 10 ^ fracLen
  if neg then -q else q

/-- Python's `float` applied to a string drawn from digits, `.` and `-`
(the only characters surviving `stripCurrency`): an optional leading
minus sign, then digits with at most one decimal point and at least one
digit; anything else fails. -/
def parseFloatChars (cs : List Char) : Option ℚ :=
  let (neg, rest) := match cs with
    | '-' :: rest => (true, rest)
    | _ => (false, cs)
  let intPart := rest.takeWhile Char.isDigit
  let rest2 := rest.dropWhile Char.isDigit
  match rest2 with
  | [] => if intPart.isEmpty then none else some (ratOfParts neg (digitsVal intPart) 0)
  | '.' :: frac =>
      if frac.all Char.isDigit && !(intPart.isEmpty && frac.isEmpty) then
        some (ratOfParts neg (digitsVal (intPart ++ frac)) frac.length)
      else none
  | _ => none

/-- The cleaner `clean_currency`: on a string, strip every character that is not a
digit, dot or minus and attempt a float parse, returning the number on
success and `None` on failure; every non-string value passes through
unchanged. -/
def clean_currency (x : PyVal) : PyVal :=
  match x with
  | .vStr s =>
      match parseFloatChars (stripCurrency s).data with
      | some q => .vNum q
      | none => .vNone
  | v => v

/-- The eight logical fields of the schema. -/
inductive Field where
  | Year | Category | Symbol | Cheap | Fair | Expensive | Close | CloseDate
deriving DecidableEq, Repr

/-- The string key under which a logical field appears in the Python
`COLUMN_NAMES` dict and in diagnostics. -/
def fieldName : Field → String
  | .Year => "Year"
  | .Category => "Category"
  | .Symbol => "Symbol"
  | .Cheap => "Cheap"
  | .Fair => "Fair"
  | .Expensive => "Expensive"
  | .Close => "Close"
  | .CloseDate => "CloseDate"

/-- Static configuration of one logical field: ordered keyword list,
display name, required flag (`config.get("required", True)`) and
exclusion list (`config.get("exclude", None)`, `[]` for absent). -/
structure FieldSpec where
  id : Field
  keywords : List String
  display : String
  required : Bool
  exclude : List String
deriving DecidableEq, Repr

/-- The entry of the `COLUMN_NAMES` table for a given field. -/
def getSpec : Field → FieldSpec
  | .Year => ⟨.Year, ["Year", "年度"], "Year (年度)", true, []⟩
  | .Category => ⟨.Category, ["Category", "Sector", "Industry", "分類", "類別", "產業"],
      "Category (分類/類別/產業)", false, []⟩
  | .Symbol => ⟨.Symbol, ["Symbol", "Stock", "代號", "股票"], "Symbol (代號/股票)", true, []⟩
  | .Cheap => ⟨.Cheap, ["Cheap", "便宜"], "Cheap Price (便宜價)", true, []⟩
  | .Fair => ⟨.Fair, ["Fair", "合理"], "Fair Price (合理價)", true, []⟩
  | .Expensive => ⟨.Expensive, ["Expensive", "昂貴"], "Expensive Price (昂貴價)", true, []⟩
  | .Close => ⟨.Close, ["Closing Price", "Close Price", "收盤價", "Close", "Closing", "收盤"],
      "Closing Price (收盤價)", true, ["Date", "日期"]⟩
  | .CloseDate => ⟨.CloseDate, ["Close Date", "Closing Date", "收盤日期", "日期", "Date"],
      "Close Date (收盤日期)", false, []⟩

/-- The fields in `COLUMN_NAMES` declaration (dict insertion) order. -/
def fieldOrder : List Field :=
  [.Year, .Category, .Symbol, .Cheap, .Fair, .Expensive, .Close, .CloseDate]

/-- The `COLUMN_NAMES` configuration table, in declaration order. -/
def COLUMN_NAMES : List FieldSpec := fieldOrder.map getSpec

/-- The matcher `find_column(keywords, columns, exclude)`: scan the headers in
order; skip any header containing an exclusion keyword; return the
first remaining header containing some keyword, else `None`. -/
def find_column (keywords : List String) (columns : List String)
    (exclude : List String) : Option String :=
  match columns with
  | [] => none
  | col :: cols =>
      if exclude.any (fun ex => strIn ex col) then
        find_column keywords cols exclude
      else if keywords.any (fun kw => strIn kw col) then
        some col
      else
        find_column keywords cols exclude

/-- A column map: each logical field bound to a raw header or `None`. -/
def ColMap := Field → Option String

/-- The mapper `map_columns`: bind every field of `COLUMN_NAMES` via `find_column`
over the table's headers. -/
def map_columns (headers : List String) : ColMap :=
  fun f => find_column (getSpec f).keywords headers (getSpec f).exclude

/-- A diagnostic: error code, field key, message and suggestion. -/
structure ValidationError where
  error_type : String
  field : String
  message : String
  suggestion : String
deriving DecidableEq, Repr

/-- A validation result: accumulated fatal errors and advisory
warnings. -/
structure ValidationResult where
  errors : List ValidationError
  warnings : List ValidationError
deriving DecidableEq, Repr

/-- The check `ValidationResult.is_valid`: no errors were recorded. -/
def ValidationResult.is_valid (r : ValidationResult) : Bool :=
  r.errors.length = 0

/-- Python truthiness of an optional column name (`if col_map["X"]:`):
present and non-empty. -/
def truthy : Option String → Bool
  | some s => !(s = "")
  | none => false

/-- Pandas `df.empty`: true when either axis has length zero. -/
def dfEmpty (df : Table) : Bool :=
  df.rows.length = 0 || df.headers.length = 0

/-- The `EMPTY_FILE` diagnostic of `validate_csv_structure`. -/
def emptyFileError : ValidationError :=
  ⟨"EMPTY_FILE", "CSV", "The uploaded CSV file is empty.",
   "Please upload a file with data."⟩

/-- The `NO_COLUMNS` diagnostic of `validate_csv_structure`. -/
def noColumnsError : ValidationError :=
  ⟨"NO_COLUMNS", "CSV", "The uploaded CSV file has no columns.",
   "Please ensure the file is properly formatted."⟩

/-- The `INSUFFICIENT_DATA` diagnostic of `validate_csv_structure`. -/
def insufficientDataError : ValidationError :=
  ⟨"INSUFFICIENT_DATA", "CSV", "The uploaded CSV file has no data rows.",
   "Please ensure the file contains at least one row of data."⟩

/-- The validator `validate_csv_structure`: `EMPTY_FILE` when the frame is empty,
then `NO_COLUMNS`, then `INSUFFICIENT_DATA`, each short-circuiting. -/
def validate_csv_structure (df : Table) : ValidationResult :=
  if dfEmpty df then
    ⟨[emptyFileError], []⟩
  else if df.headers.length = 0 then
    ⟨[noColumnsError], []⟩
  else if df.rows.length < 1 then
    ⟨[insufficientDataError], []⟩
  else ⟨[], []⟩

/-- The `MISSING_COLUMN` diagnostic for one field of the schema. -/
def missingColumnError (spec : FieldSpec) : ValidationError :=
  ⟨"MISSING_COLUMN", fieldName spec.id,
   "Required column '" ++ spec.display ++ "' is missing from the CSV file.",
   "Please ensure your CSV file contains a column with one of these names: " ++
     String.intercalate ", " spec.keywords⟩

/-- The validator `validate_required_columns`: one `MISSING_COLUMN` error for every
required field whose map entry is `None`, accumulated in declaration
order. -/
def validate_required_columns (colMap : ColMap) : ValidationResult :=
  { errors := COLUMN_NAMES.foldl (fun acc spec =>
      if spec.required && (colMap spec.id).isNone then
        acc ++ [missingColumnError spec]
      else acc) [],
    warnings := [] }

/-- Column access `df[name]`: the named column as a list of cells (empty when the
header is absent; the source would raise a `KeyError` there, a case the
pipeline never exercises because mapped names come from the headers). -/
def getCol (df : Table) (name : String) : List PyVal :=
  match df.headers.findIdx? (fun h => h == name) with
  | some i => df.rows.map (fun r => r.getD i .vNone)
  | none => []

/-- Pandas `pd.isnull` on a cell: only the null/NaN marker counts. -/
def isNullVal : PyVal → Bool
  | .vNone => true
  | _ => false

/-- Python's `f"{x:.1f}"` on the percentage: one decimal digit, nearest
rounding. -/
def fmtPct (q : ℚ) : String :=
  let n : ℤ := round (q * 10)
  toString (n / 10) ++ "." ++ toString (n % 10)

/-- The null-count message of the null-density rule. -/
def nullMessage (display : String) (nullCount totalRows : ℕ) : String :=
  "Column '" ++ display ++ "' has " ++ toString nullCount ++
    " null values (" ++ fmtPct ((nullCount : ℚ) / (totalRows : ℚ) * 100) ++ "% of data)."

/-- Number of null cells of a named column. -/
def nullCount (df : Table) (colName : String) : ℕ :=
  (getCol df colName).countP isNullVal

/-- The fatal `NULL_VALUES` diagnostic (every row null). -/
def nullAllError (spec : FieldSpec) (n t : ℕ) : ValidationError :=
  ⟨"NULL_VALUES", fieldName spec.id, nullMessage spec.display n t,
   "This column appears to be completely empty. Please check your data file."⟩

/-- The majority-missing `NULL_VALUES` warning (over 50% null). -/
def nullMajorityWarning (spec : FieldSpec) (n t : ℕ) : ValidationError :=
  ⟨"NULL_VALUES", fieldName spec.id, nullMessage spec.display n t,
   "More than half of the values are missing. This may affect analysis accuracy."⟩

/-- The rows-excluded `NULL_VALUES` warning (over 10% null). -/
def nullSomeWarning (spec : FieldSpec) (n t : ℕ) : ValidationError :=
  ⟨"NULL_VALUES", fieldName spec.id, nullMessage spec.display n t,
   "Some values are missing. These rows will be excluded from analysis."⟩

/-- The null-density rule of `validate_data_quality` for one mapped
field: an error when every row is null, a warning above 50% and above
10%, nothing otherwise. Returns `(errors, warnings)`. -/
def nullRule (df : Table) (spec : FieldSpec) (colName : String) :
    List ValidationError × List ValidationError :=
  let n := nullCount df colName
  let totalRows := df.rows.length
  if 0 < n then
    let percentage : ℚ := (n : ℚ) / (totalRows : ℚ) * 100
    if n = totalRows then
      ([nullAllError spec n totalRows], [])
    else if 50 < percentage then
      ([], [nullMajorityWarning spec n totalRows])
    else if 10 < percentage then
      ([], [nullSomeWarning spec n totalRows])
    else ([], [])
  else ([], [])

/-- Pandas `pd.to_numeric(·, errors='coerce')` on a cell: numbers pass,
booleans coerce to 0/1, strings go through a strict numeric parse,
null stays out (callers drop nulls first). -/
def toNumeric (v : PyVal) : Option ℚ :=
  match v with
  | .vNum q => some q
  | .vBool b => some (if b then 1 else 0)
  | .vStr s => parseFloatChars s.data
  | .vNone => none

/-- The price fields in the order the quality validator scans them. -/
def priceFields : List Field := [.Cheap, .Fair, .Expensive, .Close]

/-- Number of non-null cells of a named column that fail numeric
coercion. -/
def invalidCount (df : Table) (colName : String) : ℕ :=
  ((getCol df colName).filter (fun v => !isNullVal v)).countP
    (fun v => (toNumeric v).isNone)

/-- The `INVALID_DATA_TYPE` warning of the numeric-coercion rule. -/
def priceWarning (spec : FieldSpec) (k : ℕ) : ValidationError :=
  ⟨"INVALID_DATA_TYPE", fieldName spec.id,
   "Column '" ++ spec.display ++ "' contains " ++ toString k ++ " non-numeric values.",
   "Price values should be numeric. Please check for invalid entries."⟩

/-- The numeric-coercion rule of `validate_data_quality` for one mapped
price field: a single `INVALID_DATA_TYPE` warning counting non-null
values that fail numeric coercion, when any exist. -/
def priceRule (df : Table) (spec : FieldSpec) (colName : String) : List ValidationError :=
  let nonNull := (getCol df colName).filter (fun v => !isNullVal v)
  if 0 < nonNull.length then
    if 0 < invalidCount df colName then
      [priceWarning spec (invalidCount df colName)]
    else []
  else []

/-- The (Year, Symbol) keys of the rows, with null-bearing keys dropped
as `groupby` does. -/
def dupKeys (df : Table) (yearCol symCol : String) : List (PyVal × PyVal) :=
  ((getCol df yearCol).zip (getCol df symCol)).filter
    (fun k => !isNullVal k.1 && !isNullVal k.2)

/-- Number of distinct (Year, Symbol) keys shared by more than one
row. -/
def dupGroupCount (ks : List (PyVal × PyVal)) : ℕ :=
  (ks.dedup.filter (fun k => 1 < ks.count k)).length

/-- The `DUPLICATE_DATA` warning of the duplicate-key rule. -/
def dupWarning (d : ℕ) : ValidationError :=
  ⟨"DUPLICATE_DATA", "Symbol",
   "Found " ++ toString d ++ " duplicate stock entries (same symbol and year).",
   "Each stock should appear only once per year. Duplicate entries may cause incorrect analysis."⟩

/-- The duplicate-key rule of `validate_data_quality`: one
`DUPLICATE_DATA` warning counting the duplicated (Year, Symbol)
groups, when any exist. -/
def dupRule (df : Table) (yearCol symCol : String) : List ValidationError :=
  let d := dupGroupCount (dupKeys df yearCol symCol)
  if 0 < d then [dupWarning d] else []

/-- The validator `validate_data_quality`: the null-density rule over every mapped
field in declaration order, then the numeric-coercion rule over the
mapped price fields, then the duplicate-key rule when both Year and
Symbol are mapped (Python truthiness on the names). -/
def validate_data_quality (df : Table) (colMap : ColMap) : ValidationResult :=
  let nullPart := fieldOrder.foldl (fun acc f =>
    match colMap f with
    | none => acc
    | some colName =>
        let res := nullRule df (getSpec f) colName
        (acc.1 ++ res.1, acc.2 ++ res.2)) ([], [])
  let pricePart := priceFields.foldl (fun acc f =>
    match colMap f with
    | none => acc
    | some colName => acc ++ priceRule df (getSpec f) colName) []
  let dupPart :=
    if truthy (colMap .Symbol) && truthy (colMap .Year) then
      dupRule df ((colMap .Year).getD "") ((colMap .Symbol).getD "")
    else []
  ⟨nullPart.1, nullPart.2 ++ pricePart ++ dupPart⟩

/-- Column update `df[name] = df[name].apply(f)`: transform the named column cell by
cell, leaving the frame unchanged when the header is absent. -/
def setCol (df : Table) (name : String) (f : PyVal → PyVal) : Table :=
  match df.headers.findIdx? (fun h => h == name) with
  | some i => ⟨df.headers, df.rows.map (fun r => r.set i (f (r.getD i .vNone)))⟩
  | none => df

/-- Pandas `astype(str)` on a cell: its Python text rendering (integral
numbers render without a decimal part; other rationals keep their
rational rendering, a simplification that no claim inspects). -/
def pyStr : PyVal → String
  | .vStr s => s
  | .vNum q => if q.den = 1 then toString q.num else toString q
  | .vNone => "nan"
  | .vBool b => if b then "True" else "False"

/-- Pandas `.str.replace(r'\.0$', '', regex=True)`: drop one trailing `.0`. -/
def stripDotZero (s : String) : String :=
  if s.endsWith ".0" then s.dropRight 2 else s

/-- The Year-column transform of `clean_data`. -/
def yearClean (v : PyVal) : PyVal := .vStr (stripDotZero (pyStr v))

/-- The Symbol-column transform of `clean_data`. -/
def symbolClean (v : PyVal) : PyVal := .vStr (pyStr v).trim

/-- Apply a per-cell transform to a mapped column when the map entry is
truthy, as `clean_data`'s `if col_map[...]:` guards do. -/
def applyIfMapped (df : Table) (o : Option String) (f : PyVal → PyVal) : Table :=
  if truthy o then setCol df (o.getD "") f else df

/-- The cleaner `clean_data`: normalize Year and Symbol to text and the four price
columns through `clean_currency`, each only when mapped. -/
def clean_data (df : Table) (colMap : ColMap) : Table :=
  let d1 := applyIfMapped df (colMap .Year) yearClean
  let d2 := applyIfMapped d1 (colMap .Symbol) symbolClean
  priceFields.foldl (fun d f => applyIfMapped d (colMap f) clean_currency) d2

/-- The pipeline `load_and_process_data` from the parsed frame on: structural
validation, column mapping, schema validation, cleaning, quality
validation, with the source's early returns. -/
def load_and_process_data (df : Table) :
    Option Table × Option ColMap × ValidationResult :=
  let structuralResult := validate_csv_structure df
  if !structuralResult.is_valid then (none, none, structuralResult)
  else
    let colMap := map_columns df.headers
    let columnValidation := validate_required_columns colMap
    if !columnValidation.is_valid then (none, some colMap, columnValidation)
    else
      let cleaned := clean_data df colMap
      let qualityValidation := validate_data_quality cleaned colMap
      let combined : ValidationResult :=
        ⟨structuralResult.errors ++ qualityValidation.errors,
         structuralResult.warnings ++ qualityValidation.warnings⟩
      if !combined.is_valid then (none, some colMap, combined)
      else (some cleaned, some colMap, combined)

end StockAnalyzer

namespace StockAnalyzer

example : clean_currency (.vStr "$1,234.56") = .vNum 1234.56 := by
  have h : clean_currency (.vStr "$1,234.56") = .vNum (ratOfParts false 123456 2) := by rfl
  rw [h]
  simp only [PyVal.vNum.injEq, ratOfParts]
  norm_num

example : clean_currency (.vStr "-150.50") = .vNum (-150.50) := by
  have h : clean_currency (.vStr "-150.50") = .vNum (ratOfParts true 15050 2) := by rfl
  rw [h]
  simp only [PyVal.vNum.injEq, ratOfParts]
  norm_num

example : clean_currency (.vStr "invalid") = .vNone := by rfl
example : clean_currency (.vStr "") = .vNone := by rfl
example : clean_currency (.vNum 150.5) = .vNum 150.5 := by rfl

/-- The header accepted by `find_column` for a header list: not
excluded, and containing some keyword. -/
theorem find_column_find (keywords columns exclude : List String) :
    find_column keywords columns exclude =
      columns.find? (fun col =>
        !exclude.any (fun ex => strIn ex col) &&
        keywords.any (fun kw => strIn kw col)) := by
  induction columns with
  | nil => rfl
  | cons col cols ih =>
      rw [find_column]
      by_cases hex : exclude.any (fun ex => strIn ex col)
      · simp [hex, List.find?, ih]
      · by_cases hkw : keywords.any (fun kw => strIn kw col)
        · simp [hex, hkw, List.find?]
        · simp [hex, hkw, List.find?, ih]

/-- C1: for every header list and field configuration, `find_column`
binds the field to the first header, in original order, that contains
no exclusion keyword as a substring and contains at least one
configured keyword as a substring, and yields `none` when no such
header exists; concretely, with both "Close Date" and "Closing Price"
present, the Close field maps to "Closing Price" because the exclusion
keywords are tested first. -/
theorem claim_C1_column_matcher :
    (∀ (keywords columns exclude : List String),
      find_column keywords columns exclude =
        columns.find? (fun col =>
          !exclude.any (fun ex => strIn ex col) &&
          keywords.any (fun kw => strIn kw col))) ∧
    map_columns ["Close Date", "Closing Price"] .Close = some "Closing Price" :=
  ⟨find_column_find, by rfl⟩

/-- C2 counterexample: a table with nonzero columns and zero data rows
is reported with error kind `EMPTY_FILE`, not `INSUFFICIENT_DATA`. -/
theorem claim_C2_counterexample :
    (Table.mk ["Year", "Symbol"] []).headers.length ≠ 0 ∧
    (Table.mk ["Year", "Symbol"] []).rows.length = 0 ∧
    (validate_csv_structure ⟨["Year", "Symbol"], []⟩).errors =
      [emptyFileError] ∧
    ∀ e ∈ (validate_csv_structure ⟨["Year", "Symbol"], []⟩).errors,
      e.error_type ≠ "INSUFFICIENT_DATA" := by
  refine ⟨by decide, rfl, rfl, ?_⟩
  intro e he
  rw [show (validate_csv_structure ⟨["Year", "Symbol"], []⟩).errors =
      [emptyFileError] from rfl] at he
  have : e = emptyFileError := by simpa using he
  subst this
  decide

/-- C2 amended: every table with zero data rows yields, regardless of
its headers, the single fatal `EMPTY_FILE` error and the structural
stage short-circuits with exactly that error; the `INSUFFICIENT_DATA`
branch is subsumed and never reached. -/
theorem claim_C2_zero_rows_empty_file (df : Table) (h : df.rows.length = 0) :
    validate_csv_structure df = ⟨[emptyFileError], []⟩ := by
  unfold validate_csv_structure dfEmpty
  simp [h]

/-- C2 witness: the amended statement at a concrete one-column,
zero-row table. -/
theorem claim_C2_witness :
    validate_csv_structure ⟨["Year"], []⟩ = ⟨[emptyFileError], []⟩ :=
  claim_C2_zero_rows_empty_file ⟨["Year"], []⟩ rfl

/-- C3: `clean_currency` on a string strips every character that is not
a digit, decimal point or minus sign, then parses: success yields the
number, failure (including a string emptied by stripping) yields null;
with the spec's concrete examples. -/
theorem claim_C3_clean_currency :
    (∀ s : String, parseFloatChars (stripCurrency s).data = none →
        clean_currency (.vStr s) = .vNone) ∧
    (∀ (s : String) (q : ℚ), parseFloatChars (stripCurrency s).data = some q →
        clean_currency (.vStr s) = .vNum q) ∧
    (∀ s : String, stripCurrency s = "" → clean_currency (.vStr s) = .vNone) ∧
    clean_currency (.vStr "$1,234.56") = .vNum 1234.56 ∧
    clean_currency (.vStr "-150.50") = .vNum (-150.50) ∧
    clean_currency (.vStr "invalid") = .vNone ∧
    clean_currency (.vStr "") = .vNone ∧
    clean_currency (.vNum 150.5) = .vNum 150.5 := by
  refine ⟨?_, ?_, ?_, ?_, ?_, rfl, rfl, rfl⟩
  · intro s h
    simp [clean_currency, h]
  · intro s q h
    simp [clean_currency, h]
  · intro s h
    simp only [clean_currency, h]
    rfl
  · have h : clean_currency (.vStr "$1,234.56") = .vNum (ratOfParts false 123456 2) := by rfl
    rw [h]
    simp only [PyVal.vNum.injEq, ratOfParts]
    norm_num
  · have h : clean_currency (.vStr "-150.50") = .vNum (ratOfParts true 15050 2) := by rfl
    rw [h]
    simp only [PyVal.vNum.injEq, ratOfParts]
    norm_num

/-- C3 witness: the parse-failure case at a concrete input. -/
theorem claim_C3_witness : clean_currency (.vStr "NT$") = .vNone :=
  claim_C3_clean_currency.1 "NT$" rfl

/-- C10: `clean_currency` passes every non-string value through
unchanged: null stays null, numbers stay themselves, and any other
non-string value is returned untouched. -/
theorem claim_C10_non_string_passthrough :
    clean_currency .vNone = .vNone ∧
    (∀ q : ℚ, clean_currency (.vNum q) = .vNum q) ∧
    (∀ b : Bool, clean_currency (.vBool b) = .vBool b) ∧
    (∀ v : PyVal, (∀ s : String, v ≠ .vStr s) → clean_currency v = v) := by
  refine ⟨rfl, fun q => rfl, fun b => rfl, ?_⟩
  intro v hv
  cases v with
  | vStr s => exact absurd rfl (hv s)
  | vNum q => rfl
  | vNone => rfl
  | vBool b => rfl

/-- C10 witness: the generic non-string case at a concrete value. -/
theorem claim_C10_witness : clean_currency (.vBool true) = .vBool true :=
  claim_C10_non_string_passthrough.2.2.2 (.vBool true)
    (fun _ h => PyVal.noConfusion h)

/-- The update `setCol` keeps the header list and the number of rows. -/
theorem setCol_shape (df : Table) (name : String) (f : PyVal → PyVal) :
    (setCol df name f).headers = df.headers ∧
    (setCol df name f).rows.length = df.rows.length := by
  unfold setCol
  cases df.headers.findIdx? (fun h => h == name) with
  | none => exact ⟨rfl, rfl⟩
  | some i => exact ⟨rfl, by simp⟩

/-- The guard `applyIfMapped` keeps the header list and the number of rows. -/
theorem applyIfMapped_shape (df : Table) (o : Option String) (f : PyVal → PyVal) :
    (applyIfMapped df o f).headers = df.headers ∧
    (applyIfMapped df o f).rows.length = df.rows.length := by
  unfold applyIfMapped
  by_cases h : truthy o
  · simp [h, setCol_shape]
  · simp [h]

/-- A fold of `applyIfMapped` steps keeps the header list and the
number of rows. -/
theorem foldl_applyIfMapped_shape (colMap : ColMap) (fs : List Field) (df : Table) :
    ((fs.foldl (fun d f => applyIfMapped d (colMap f) clean_currency) df).headers
        = df.headers) ∧
    ((fs.foldl (fun d f => applyIfMapped d (colMap f) clean_currency) df).rows.length
        = df.rows.length) := by
  induction fs generalizing df with
  | nil => exact ⟨rfl, rfl⟩
  | cons f fs ih =>
      simp only [List.foldl_cons]
      refine ⟨?_, ?_⟩
      · rw [(ih (applyIfMapped df (colMap f) clean_currency)).1,
          (applyIfMapped_shape df (colMap f) clean_currency).1]
      · rw [(ih (applyIfMapped df (colMap f) clean_currency)).2,
          (applyIfMapped_shape df (colMap f) clean_currency).2]

/-- The error-accumulating fold of `validate_required_columns` appends
one `MISSING_COLUMN` error per required unmapped field, in list
order. -/
theorem required_foldl_eq (colMap : ColMap) (specs : List FieldSpec)
    (acc : List ValidationError) :
    specs.foldl (fun acc spec =>
        if spec.required && (colMap spec.id).isNone then
          acc ++ [missingColumnError spec]
        else acc) acc =
      acc ++ (specs.filter (fun spec =>
        spec.required && (colMap spec.id).isNone)).map missingColumnError := by
  induction specs generalizing acc with
  | nil => simp
  | cons spec specs ih =>
      rw [List.foldl_cons, ih, List.filter_cons]
      cases hc : spec.required && (colMap spec.id).isNone with
      | false => simp [hc]
      | true => simp [hc]

/-- Every entry of `COLUMN_NAMES` is the `getSpec` entry of its own
field. -/
theorem spec_eq_getSpec {spec : FieldSpec} (h : spec ∈ COLUMN_NAMES) :
    spec = getSpec spec.id := by
  rw [COLUMN_NAMES] at h
  simp [fieldOrder] at h
  rcases h with rfl | rfl | rfl | rfl | rfl | rfl | rfl | rfl <;> rfl

/-- C5: the Schema Validator emits exactly one `MISSING_COLUMN` error
per required field whose map entry is null, in field-declaration order
(first conjunct); only Category and CloseDate are optional (second);
each error carries the display name inside its message and every
configured keyword inside its suggestion (third and fourth); a map with
all required fields bound yields no errors (fifth); and a map missing
exactly Year, Symbol and Cheap yields exactly those three errors in
declaration order (sixth). -/
theorem claim_C5_required_columns :
    (∀ colMap : ColMap,
      (validate_required_columns colMap).errors =
        (COLUMN_NAMES.filter (fun spec =>
          spec.required && (colMap spec.id).isNone)).map missingColumnError) ∧
    COLUMN_NAMES.map (fun spec => (spec.id, spec.required)) =
      [(.Year, true), (.Category, false), (.Symbol, true), (.Cheap, true),
       (.Fair, true), (.Expensive, true), (.Close, true), (.CloseDate, false)] ∧
    COLUMN_NAMES.all
      (fun spec => strIn spec.display (missingColumnError spec).message) = true ∧
    COLUMN_NAMES.all (fun spec => spec.keywords.all
      (fun kw => strIn kw (missingColumnError spec).suggestion)) = true ∧
    (∀ colMap : ColMap,
      (∀ f : Field, (getSpec f).required = true → (colMap f).isSome = true) →
      (validate_required_columns colMap).errors = []) ∧
    (validate_required_columns (fun f => match f with
        | .Year => none | .Symbol => none | .Cheap => none
        | g => some (fieldName g))).errors =
      [missingColumnError (getSpec .Year), missingColumnError (getSpec .Symbol),
       missingColumnError (getSpec .Cheap)] := by
  have hmain : ∀ colMap : ColMap,
      (validate_required_columns colMap).errors =
        (COLUMN_NAMES.filter (fun spec =>
          spec.required && (colMap spec.id).isNone)).map missingColumnError := by
    intro colMap
    unfold validate_required_columns
    simpa using required_foldl_eq colMap COLUMN_NAMES []
  refine ⟨hmain, by rfl, by rfl, by rfl, ?_, by rfl⟩
  intro colMap hreq
  rw [hmain]
  have hnil : COLUMN_NAMES.filter (fun spec =>
      spec.required && (colMap spec.id).isNone) = [] := by
    rw [List.filter_eq_nil_iff]
    intro spec hmem
    have hs : spec = getSpec spec.id := spec_eq_getSpec hmem
    by_cases hr : spec.required = true
    · have hsome := hreq spec.id (by rw [hs] at hr; exact hr)
      cases h : colMap spec.id with
      | none => rw [h] at hsome; exact Bool.noConfusion hsome
      | some v => simp [hr, h]
    · simp only [Bool.not_eq_true] at hr
      simp [hr]
  rw [hnil, List.map_nil]

/-- C5 witness: the no-missing-required-fields case at a concrete map
binding every field. -/
theorem claim_C5_witness :
    (validate_required_columns (fun f => some (fieldName f))).errors = [] :=
  claim_C5_required_columns.2.2.2.2.1 (fun f => some (fieldName f))
    (fun _ _ => rfl)

/-- Null-density rule, all-null branch: a fatal error. -/
theorem nullRule_all (df : Table) (spec : FieldSpec) (colName : String)
    (ht : 0 < df.rows.length) (h : nullCount df colName = df.rows.length) :
    nullRule df spec colName =
      ([nullAllError spec (nullCount df colName) df.rows.length], []) := by
  simp only [nullRule]
  rw [if_pos (by rw [h]; exact ht), if_pos h]

/-- Null-density rule, majority branch: ratio above one half yields the
majority-missing warning. -/
theorem nullRule_majority (df : Table) (spec : FieldSpec) (colName : String)
    (hne : nullCount df colName ≠ df.rows.length)
    (hr : (1 : ℚ)/2 < (nullCount df colName : ℚ) / (df.rows.length : ℚ)) :
    nullRule df spec colName =
      ([], [nullMajorityWarning spec (nullCount df colName) df.rows.length]) := by
  have hn : 0 < nullCount df colName := by
    rcases Nat.eq_zero_or_pos (nullCount df colName) with h0 | h
    · rw [h0] at hr
      norm_num at hr
    · exact h
  have h50 : (50 : ℚ) <
      (nullCount df colName : ℚ) / (df.rows.length : ℚ) * 100 := by
    linarith
  simp only [nullRule]
  rw [if_pos hn, if_neg hne, if_pos h50]

/-- Null-density rule, moderate branch: ratio in (1/10, 1/2] yields the
rows-excluded warning. -/
theorem nullRule_moderate (df : Table) (spec : FieldSpec) (colName : String)
    (hne : nullCount df colName ≠ df.rows.length)
    (h1 : (1 : ℚ)/10 < (nullCount df colName : ℚ) / (df.rows.length : ℚ))
    (h2 : (nullCount df colName : ℚ) / (df.rows.length : ℚ) ≤ (1 : ℚ)/2) :
    nullRule df spec colName =
      ([], [nullSomeWarning spec (nullCount df colName) df.rows.length]) := by
  have hn : 0 < nullCount df colName := by
    rcases Nat.eq_zero_or_pos (nullCount df colName) with h0 | h
    · rw [h0] at h1
      norm_num at h1
    · exact h
  have hn50 : ¬ ((50 : ℚ) <
      (nullCount df colName : ℚ) / (df.rows.length : ℚ) * 100) := by
    intro hcon
    linarith
  have h10 : (10 : ℚ) <
      (nullCount df colName : ℚ) / (df.rows.length : ℚ) * 100 := by
    linarith
  simp only [nullRule]
  rw [if_pos hn, if_neg hne, if_neg hn50, if_pos h10]

/-- Null-density rule, low branch: ratio at most 1/10 yields nothing. -/
theorem nullRule_low (df : Table) (spec : FieldSpec) (colName : String)
    (ht : 0 < df.rows.length)
    (h : (nullCount df colName : ℚ) / (df.rows.length : ℚ) ≤ (1 : ℚ)/10) :
    nullRule df spec colName = ([], []) := by
  rcases Nat.eq_zero_or_pos (nullCount df colName) with h0 | hn
  · simp only [nullRule]
    rw [if_neg (by rw [h0]; exact lt_irrefl 0)]
  · have hne : nullCount df colName ≠ df.rows.length := by
      intro he
      rw [he, div_self (by exact_mod_cast ht.ne')] at h
      norm_num at h
    have hn50 : ¬ ((50 : ℚ) <
        (nullCount df colName : ℚ) / (df.rows.length : ℚ) * 100) := by
      intro hcon
      linarith
    have hn10 : ¬ ((10 : ℚ) <
        (nullCount df colName : ℚ) / (df.rows.length : ℚ) * 100) := by
      intro hcon
      linarith
    simp only [nullRule]
    rw [if_pos hn, if_neg hne, if_neg hn50, if_neg hn10]

/-- C4: for a mapped field over a nonempty table, the null-density rule
of the Data Quality Validator emits a fatal `NULL_VALUES` error when
every row is null, a majority-missing `NULL_VALUES` warning (message
stating the percentage) when the ratio exceeds 1/2, a rows-excluded
`NULL_VALUES` warning when the ratio is in (1/10, 1/2], and nothing
when the ratio is at most 1/10; and `validate_data_quality` on a map
binding a single non-price field consists exactly of that rule's
output. -/
theorem claim_C4_null_density :
    (∀ (df : Table) (spec : FieldSpec) (colName : String),
      (0 < df.rows.length → nullCount df colName = df.rows.length →
        nullRule df spec colName =
          ([nullAllError spec (nullCount df colName) df.rows.length], [])) ∧
      (nullCount df colName ≠ df.rows.length →
        (1 : ℚ)/2 < (nullCount df colName : ℚ) / (df.rows.length : ℚ) →
        nullRule df spec colName =
          ([], [nullMajorityWarning spec (nullCount df colName) df.rows.length])) ∧
      (nullCount df colName ≠ df.rows.length →
        (1 : ℚ)/10 < (nullCount df colName : ℚ) / (df.rows.length : ℚ) →
        (nullCount df colName : ℚ) / (df.rows.length : ℚ) ≤ (1 : ℚ)/2 →
        nullRule df spec colName =
          ([], [nullSomeWarning spec (nullCount df colName) df.rows.length])) ∧
      (0 < df.rows.length →
        (nullCount df colName : ℚ) / (df.rows.length : ℚ) ≤ (1 : ℚ)/10 →
        nullRule df spec colName = ([], []))) ∧
    (∀ (df : Table) (colName : String),
      validate_data_quality df (fun f => match f with
          | .Category => some colName | _ => none) =
        ⟨(nullRule df (getSpec .Category) colName).1,
         (nullRule df (getSpec .Category) colName).2⟩) := by
  constructor
  · intro df spec colName
    exact ⟨fun ht h => nullRule_all df spec colName ht h,
      fun hne hr => nullRule_majority df spec colName hne hr,
      fun hne h1 h2 => nullRule_moderate df spec colName hne h1 h2,
      fun ht h => nullRule_low df spec colName ht h⟩
  · intro df colName
    simp [validate_data_quality, fieldOrder, priceFields, truthy]

/-- C4 witness: the all-null branch at a concrete one-row table. -/
theorem claim_C4_witness :
    nullRule ⟨["A"], [[.vNone]]⟩ (getSpec .Fair) "A" =
      ([nullAllError (getSpec .Fair) 1 1], []) :=
  (claim_C4_null_density.1 ⟨["A"], [[.vNone]]⟩ (getSpec .Fair) "A").1
    (by decide) (by rfl)

/-- The null-density fold of `validate_data_quality` appends, per field
in order, the errors and warnings of `nullRule` on its mapped column. -/
theorem quality_nullPart_eq (df : Table) (colMap : ColMap) (fs : List Field)
    (acc : List ValidationError × List ValidationError) :
    fs.foldl (fun acc f =>
      match colMap f with
      | none => acc
      | some colName =>
          let res := nullRule df (getSpec f) colName
          (acc.1 ++ res.1, acc.2 ++ res.2)) acc =
      (acc.1 ++ (fs.map (fun f => match colMap f with
          | none => [] | some c => (nullRule df (getSpec f) c).1)).flatten,
       acc.2 ++ (fs.map (fun f => match colMap f with
          | none => [] | some c => (nullRule df (getSpec f) c).2)).flatten) := by
  induction fs generalizing acc with
  | nil => simp
  | cons f fs ih =>
      rw [List.foldl_cons, ih]
      cases h : colMap f with
      | none => simp [h]
      | some c => simp [h]

/-- The price-field fold of `validate_data_quality` appends, per price
field in order, the warnings of `priceRule` on its mapped column. -/
theorem quality_pricePart_eq (df : Table) (colMap : ColMap) (fs : List Field)
    (acc : List ValidationError) :
    fs.foldl (fun acc f =>
      match colMap f with
      | none => acc
      | some colName => acc ++ priceRule df (getSpec f) colName) acc =
      acc ++ (fs.map (fun f => match colMap f with
        | none => [] | some c => priceRule df (getSpec f) c)).flatten := by
  induction fs generalizing acc with
  | nil => simp
  | cons f fs ih =>
      rw [List.foldl_cons, ih]
      cases h : colMap f with
      | none => simp [h]
      | some c => simp [h]

/-- The validator `validate_data_quality` decomposed: errors are the per-field null
errors; warnings are the per-field null warnings, then the price
warnings, then the duplicate warning. -/
theorem validate_data_quality_eq (df : Table) (colMap : ColMap) :
    validate_data_quality df colMap =
      ⟨(fieldOrder.map (fun f => match colMap f with
          | none => [] | some c => (nullRule df (getSpec f) c).1)).flatten,
       (fieldOrder.map (fun f => match colMap f with
          | none => [] | some c => (nullRule df (getSpec f) c).2)).flatten ++
       ((priceFields.map (fun f => match colMap f with
          | none => [] | some c => priceRule df (getSpec f) c)).flatten ++
        (if truthy (colMap .Symbol) && truthy (colMap .Year) then
          dupRule df ((colMap .Year).getD "") ((colMap .Symbol).getD "")
        else []))⟩ := by
  simp only [validate_data_quality]
  rw [quality_nullPart_eq, quality_pricePart_eq]
  simp

/-- The rule `nullRule` returns one of its four explicit outcomes. -/
theorem nullRule_cases (df : Table) (spec : FieldSpec) (colName : String) :
    nullRule df spec colName =
        ([nullAllError spec (nullCount df colName) df.rows.length], []) ∨
    nullRule df spec colName =
        ([], [nullMajorityWarning spec (nullCount df colName) df.rows.length]) ∨
    nullRule df spec colName =
        ([], [nullSomeWarning spec (nullCount df colName) df.rows.length]) ∨
    nullRule df spec colName = ([], []) := by
  simp only [nullRule]
  split
  · split
    · exact Or.inl rfl
    · split
      · exact Or.inr (Or.inl rfl)
      · split
        · exact Or.inr (Or.inr (Or.inl rfl))
        · exact Or.inr (Or.inr (Or.inr rfl))
  · exact Or.inr (Or.inr (Or.inr rfl))

/-- The rule `priceRule` returns either its single warning or nothing. -/
theorem priceRule_cases (df : Table) (spec : FieldSpec) (colName : String) :
    priceRule df spec colName = [priceWarning spec (invalidCount df colName)] ∨
    priceRule df spec colName = [] := by
  simp only [priceRule]
  split
  · split
    · exact Or.inl rfl
    · exact Or.inr rfl
  · exact Or.inr rfl

/-- When some non-null value fails coercion, `priceRule` emits exactly
its counting warning. -/
theorem priceRule_of_invalid (df : Table) (spec : FieldSpec) (colName : String)
    (h : 0 < invalidCount df colName) :
    priceRule df spec colName = [priceWarning spec (invalidCount df colName)] := by
  have hlen : 0 < ((getCol df colName).filter (fun v => !isNullVal v)).length := by
    refine lt_of_lt_of_le h ?_
    unfold invalidCount
    exact List.countP_le_length _
  simp only [priceRule]
  rw [if_pos hlen, if_pos h]

/-- Every error of the quality validator comes from the null-density
rule and is a `NULL_VALUES` diagnostic. -/
theorem quality_errors_null (df : Table) (colMap : ColMap) :
    ∀ e ∈ (validate_data_quality df colMap).errors, e.error_type = "NULL_VALUES" := by
  intro e he
  rw [validate_data_quality_eq] at he
  simp only [List.mem_flatten, List.mem_map] at he
  rcases he with ⟨l, ⟨f, _, rfl⟩, hel⟩
  cases h : colMap f with
  | none => rw [h] at hel; simp at hel
  | some c =>
      simp only [h] at hel
      rcases nullRule_cases df (getSpec f) c with hc | hc | hc | hc <;>
        rw [hc] at hel <;> simp at hel
      subst hel
      rfl

/-- Every warning in the null-density join is a `NULL_VALUES`
diagnostic. -/
theorem nullJoin_snd_types (df : Table) (colMap : ColMap) :
    ∀ e ∈ (fieldOrder.map (fun f => match colMap f with
        | none => [] | some c => (nullRule df (getSpec f) c).2)).flatten,
      e.error_type = "NULL_VALUES" := by
  intro e he
  simp only [List.mem_flatten, List.mem_map] at he
  rcases he with ⟨l, ⟨f, _, rfl⟩, hel⟩
  cases h : colMap f with
  | none => rw [h] at hel; simp at hel
  | some c =>
      simp only [h] at hel
      rcases nullRule_cases df (getSpec f) c with hc | hc | hc | hc <;>
        rw [hc] at hel <;> simp at hel
      · subst hel; rfl
      · subst hel; rfl

/-- Every warning in the price-field join is an `INVALID_DATA_TYPE`
diagnostic. -/
theorem priceJoin_types (df : Table) (colMap : ColMap) :
    ∀ e ∈ (priceFields.map (fun f => match colMap f with
        | none => [] | some c => priceRule df (getSpec f) c)).flatten,
      e.error_type = "INVALID_DATA_TYPE" := by
  intro e he
  simp only [List.mem_flatten, List.mem_map] at he
  rcases he with ⟨l, ⟨f, _, rfl⟩, hel⟩
  cases h : colMap f with
  | none => rw [h] at hel; simp at hel
  | some c =>
      simp only [h] at hel
      rcases priceRule_cases df (getSpec f) c with hc | hc <;>
        rw [hc] at hel <;> simp at hel
      subst hel
      rfl

/-- C8: numeric-coercion failures are advisory only — every fatal error
the Data Quality Validator ever emits is a `NULL_VALUES` diagnostic,
never `INVALID_DATA_TYPE` (first conjunct); and for any price field
mapped to a column with at least one non-null value failing numeric
coercion, the validator's warnings contain the `INVALID_DATA_TYPE`
warning counting exactly those failures (second conjunct). -/
theorem claim_C8_invalid_type_advisory :
    (∀ (df : Table) (colMap : ColMap),
      ∀ e ∈ (validate_data_quality df colMap).errors,
        e.error_type = "NULL_VALUES") ∧
    (∀ (df : Table) (colMap : ColMap) (f : Field), f ∈ priceFields →
      ∀ c : String, colMap f = some c → 0 < invalidCount df c →
        priceWarning (getSpec f) (invalidCount df c) ∈
          (validate_data_quality df colMap).warnings) := by
  refine ⟨quality_errors_null, ?_⟩
  intro df colMap f hf c hc hinv
  rw [validate_data_quality_eq]
  have hmem : priceWarning (getSpec f) (invalidCount df c) ∈
      (priceFields.map (fun g => match colMap g with
        | none => [] | some cc => priceRule df (getSpec g) cc)).flatten := by
    rw [List.mem_flatten]
    refine ⟨priceRule df (getSpec f) c, ?_, ?_⟩
    · rw [List.mem_map]
      exact ⟨f, hf, by rw [hc]⟩
    · rw [priceRule_of_invalid df (getSpec f) c hinv]
      simp
  simp [hmem]

/-- C8 witness: a mapped Cheap column with one unparsable entry yields
the counting warning inside the validator's output. -/
theorem claim_C8_witness :
    priceWarning (getSpec .Cheap)
        (invalidCount ⟨["P"], [[.vStr "abc"]]⟩ "P") ∈
      (validate_data_quality ⟨["P"], [[.vStr "abc"]]⟩
        (fun f => match f with | .Cheap => some "P" | _ => none)).warnings :=
  claim_C8_invalid_type_advisory.2 ⟨["P"], [[.vStr "abc"]]⟩
    (fun f => match f with | .Cheap => some "P" | _ => none)
    .Cheap (by decide) "P" rfl (by decide)

/-- A list of diagnostics all carrying a type other than
`DUPLICATE_DATA` contributes no `DUPLICATE_DATA` count. -/
theorem countP_dup_eq_zero {l : List ValidationError} (ty : String)
    (h : ∀ e ∈ l, e.error_type = ty) (hne : ty ≠ "DUPLICATE_DATA") :
    l.countP (fun e => e.error_type == "DUPLICATE_DATA") = 0 := by
  rw [List.countP_eq_zero]
  intro e he
  simp [h e he, hne]

/-- C7: when Year and Symbol are both mapped (to usable, non-empty
column names) and some (Year, Symbol) group has more than one row, the
Data Quality Validator emits exactly one `DUPLICATE_DATA` diagnostic,
it is the warning counting the duplicate groups attributed to Symbol,
and no `DUPLICATE_DATA` error exists (first conjunct); when either
field is unmapped the duplicate rule emits nothing (second
conjunct). -/
theorem claim_C7_duplicate_warning :
    (∀ (df : Table) (colMap : ColMap) (yc sc : String),
      colMap .Year = some yc → yc ≠ "" →
      colMap .Symbol = some sc → sc ≠ "" →
      0 < dupGroupCount (dupKeys df yc sc) →
        (validate_data_quality df colMap).warnings.countP
            (fun e => e.error_type == "DUPLICATE_DATA") = 1 ∧
        dupWarning (dupGroupCount (dupKeys df yc sc)) ∈
          (validate_data_quality df colMap).warnings ∧
        (validate_data_quality df colMap).errors.countP
            (fun e => e.error_type == "DUPLICATE_DATA") = 0) ∧
    (∀ (df : Table) (colMap : ColMap),
      colMap .Year = none ∨ colMap .Symbol = none →
      (validate_data_quality df colMap).warnings.countP
          (fun e => e.error_type == "DUPLICATE_DATA") = 0) := by
  constructor
  · intro df colMap yc sc hy hyne hs hsne hd
    have htr : (truthy (colMap .Symbol) && truthy (colMap .Year)) = true := by
      rw [hy, hs]
      simp [truthy, hyne, hsne]
    have hdup : (if truthy (colMap .Symbol) && truthy (colMap .Year) then
        dupRule df ((colMap .Year).getD "") ((colMap .Symbol).getD "")
      else []) = [dupWarning (dupGroupCount (dupKeys df yc sc))] := by
      rw [if_pos htr, hy, hs]
      simp only [Option.getD_some, dupRule]
      rw [if_pos hd]
    rw [validate_data_quality_eq]
    refine ⟨?_, ?_, ?_⟩
    · simp only [List.countP_append, hdup]
      rw [countP_dup_eq_zero "NULL_VALUES" (nullJoin_snd_types df colMap) (by decide),
        countP_dup_eq_zero "INVALID_DATA_TYPE" (priceJoin_types df colMap) (by decide)]
      simp [List.countP_cons, dupWarning]
    · rw [hdup]
      simp
    · exact countP_dup_eq_zero "NULL_VALUES"
        (fun e he => quality_errors_null df colMap e (by rwa [validate_data_quality_eq]))
        (by decide)
  · intro df colMap h
    have htr : (truthy (colMap .Symbol) && truthy (colMap .Year)) = false := by
      rcases h with h | h <;> rw [h] <;> simp [truthy]
    rw [validate_data_quality_eq]
    simp only [List.countP_append, htr, Bool.false_eq_true, if_false,
      List.countP_nil]
    rw [countP_dup_eq_zero "NULL_VALUES" (nullJoin_snd_types df colMap) (by decide),
      countP_dup_eq_zero "INVALID_DATA_TYPE" (priceJoin_types df colMap) (by decide)]

/-- C7 witness: two rows sharing (Year, Symbol) on a fully concrete
table yield exactly the one duplicate warning. -/
theorem claim_C7_witness :
    (validate_data_quality
        ⟨["Y", "S"], [[.vStr "2023", .vStr "A"], [.vStr "2023", .vStr "A"]]⟩
        (fun f => match f with
          | .Year => some "Y" | .Symbol => some "S" | _ => none)).warnings.countP
      (fun e => e.error_type == "DUPLICATE_DATA") = 1 :=
  (claim_C7_duplicate_warning.1
    ⟨["Y", "S"], [[.vStr "2023", .vStr "A"], [.vStr "2023", .vStr "A"]]⟩
    (fun f => match f with
      | .Year => some "Y" | .Symbol => some "S" | _ => none)
    "Y" "S" rfl (by decide) rfl (by decide) (by decide)).1

/-- The check `is_valid` holds exactly when the error list is empty. -/
theorem is_valid_iff (r : ValidationResult) : r.is_valid = true ↔ r.errors = [] := by
  unfold ValidationResult.is_valid
  simp [List.length_eq_zero]

/-- An invalid result has a nonempty error list. -/
theorem is_invalid_errors_ne (r : ValidationResult) (h : r.is_valid = false) :
    r.errors ≠ [] := by
  intro hc
  rw [(is_valid_iff r).mpr hc] at h
  exact Bool.noConfusion h

/-- The structural validator never emits warnings. -/
theorem struct_warnings_nil (df : Table) :
    (validate_csv_structure df).warnings = [] := by
  unfold validate_csv_structure
  split
  · rfl
  · split
    · rfl
    · split
      · rfl
      · rfl

/-- Pipeline, structural-failure branch: nothing later runs. -/
theorem pipeline_structural_fail (df : Table)
    (h : (validate_csv_structure df).is_valid = false) :
    load_and_process_data df = (none, none, validate_csv_structure df) := by
  simp only [load_and_process_data]
  rw [h]
  simp

/-- Pipeline, schema-failure branch: cleaning and quality validation
never run and the report is exactly the schema report. -/
theorem pipeline_schema_fail (df : Table)
    (h1 : (validate_csv_structure df).is_valid = true)
    (h2 : (validate_required_columns (map_columns df.headers)).is_valid = false) :
    load_and_process_data df =
      (none, some (map_columns df.headers),
       validate_required_columns (map_columns df.headers)) := by
  simp only [load_and_process_data]
  rw [h1, h2]
  simp

/-- Pipeline, quality branch: with structure and schema valid, the
result is the cleaned table guarded by the quality verdict, and the
report is exactly the quality report. -/
theorem pipeline_quality_branch (df : Table)
    (h1 : (validate_csv_structure df).is_valid = true)
    (h2 : (validate_required_columns (map_columns df.headers)).is_valid = true) :
    load_and_process_data df =
      (if (validate_data_quality (clean_data df (map_columns df.headers))
            (map_columns df.headers)).is_valid then
         some (clean_data df (map_columns df.headers))
       else none,
       some (map_columns df.headers),
       validate_data_quality (clean_data df (map_columns df.headers))
         (map_columns df.headers)) := by
  have hcomb : (⟨(validate_csv_structure df).errors ++
        (validate_data_quality (clean_data df (map_columns df.headers))
          (map_columns df.headers)).errors,
      (validate_csv_structure df).warnings ++
        (validate_data_quality (clean_data df (map_columns df.headers))
          (map_columns df.headers)).warnings⟩ : ValidationResult) =
      validate_data_quality (clean_data df (map_columns df.headers))
        (map_columns df.headers) := by
    rw [(is_valid_iff _).mp h1, struct_warnings_nil df]
    rfl
  simp only [load_and_process_data]
  rw [h1, h2]
  simp only [Bool.not_true, Bool.false_eq_true, if_false, hcomb]
  by_cases hq : (validate_data_quality (clean_data df (map_columns df.headers))
      (map_columns df.headers)).is_valid = true
  · simp [hq]
  · simp [hq]

/-- C6: the pipeline returns a null cleaned table exactly when the
returned report holds at least one fatal error (so warnings alone never
block the result), a structural failure short-circuits before column
matching and returns only the structural report, a schema failure
short-circuits before cleaning and quality validation and returns only
the schema report, and when both gates pass the report is exactly the
quality report with the cleaned table guarded by its verdict. -/
theorem claim_C6_pipeline (df : Table) :
    ((load_and_process_data df).1.isSome = true ↔
      (load_and_process_data df).2.2.errors = []) ∧
    ((validate_csv_structure df).is_valid = false →
      load_and_process_data df = (none, none, validate_csv_structure df)) ∧
    ((validate_csv_structure df).is_valid = true →
      (validate_required_columns (map_columns df.headers)).is_valid = false →
      load_and_process_data df =
        (none, some (map_columns df.headers),
         validate_required_columns (map_columns df.headers))) ∧
    ((validate_csv_structure df).is_valid = true →
      (validate_required_columns (map_columns df.headers)).is_valid = true →
      load_and_process_data df =
        (if (validate_data_quality (clean_data df (map_columns df.headers))
              (map_columns df.headers)).is_valid then
           some (clean_data df (map_columns df.headers))
         else none,
         some (map_columns df.headers),
         validate_data_quality (clean_data df (map_columns df.headers))
           (map_columns df.headers))) := by
  refine ⟨?_, pipeline_structural_fail df, pipeline_schema_fail df,
    pipeline_quality_branch df⟩
  by_cases h1 : (validate_csv_structure df).is_valid = true
  · by_cases h2 : (validate_required_columns (map_columns df.headers)).is_valid = true
    · rw [pipeline_quality_branch df h1 h2]
      by_cases h3 : (validate_data_quality (clean_data df (map_columns df.headers))
          (map_columns df.headers)).is_valid = true
      · simp [h3, (is_valid_iff _).mp h3]
      · have h3f := Bool.eq_false_iff.mpr h3
        simp [h3, is_invalid_errors_ne _ h3f]
    · have h2f := Bool.eq_false_iff.mpr h2
      rw [pipeline_schema_fail df h1 h2f]
      simp [is_invalid_errors_ne _ h2f]
  · have h1f := Bool.eq_false_iff.mpr h1
    rw [pipeline_structural_fail df h1f]
    simp [is_invalid_errors_ne _ h1f]

/-- C6 witness: a table whose headers miss required columns stops at
the schema stage with a null table and the schema report. -/
theorem claim_C6_witness :
    load_and_process_data ⟨["Year"], [[.vStr "2023"]]⟩ =
      (none, some (map_columns ["Year"]),
       validate_required_columns (map_columns ["Year"])) :=
  (claim_C6_pipeline ⟨["Year"], [[.vStr "2023"]]⟩).2.2.1 rfl rfl

/-- C9: cleaning never drops rows — `clean_data` returns a table with
exactly the input's number of rows (and the same headers), for every
table and column map. -/
theorem claim_C9_clean_data_preserves_rows (df : Table) (colMap : ColMap) :
    (clean_data df colMap).rows.length = df.rows.length ∧
    (clean_data df colMap).headers = df.headers := by
  unfold clean_data
  constructor
  · rw [(foldl_applyIfMapped_shape colMap priceFields _).2,
      (applyIfMapped_shape _ (colMap .Symbol) symbolClean).2,
      (applyIfMapped_shape df (colMap .Year) yearClean).2]
  · rw [(foldl_applyIfMapped_shape colMap priceFields _).1,
      (applyIfMapped_shape _ (colMap .Symbol) symbolClean).1,
      (applyIfMapped_shape df (colMap .Year) yearClean).1]

end StockAnalyzer
